import Mathlib

/-!
Verification of the `UiBuilder` fluent construction core of `sickle_ui`
(`src/crates/sickle_ui_scaffold/src/ui_builder.rs`).

The builder wraps a deferred-command queue (`bevy::Commands`, an external
collaborator the spec describes only at its interface boundary) together with
a context value: either the conceptual root (`UiRoot`) or a specific entity
handle. All mutations are appended to the queue and applied later at a flush
point owned by the external runtime.

The embedding below translates `ui_builder.rs` faithfully; the deferred
command queue, entity id reservation, `with_children`, and the flush
semantics are modelled from the spec's description of the external
collaborators (§2, §5 of the spec), matching the documented behavior of the
runtime: `spawn` reserves a fresh id synchronously and enqueues the creation
command, `with_children` runs its closure eagerly (the child spawn command is
queued during the closure) and enqueues the parent-link command right after
the closure returns, and flush applies the queue in append order.
-/

set_option autoImplicit false

namespace SickleUi

/-- Entity handles are opaque process-unique identifiers; modelled as `Nat`. -/
abbrev Entity := Nat

/-- Bevy's `Entity::PLACEHOLDER` sentinel (`Entity::from_raw(u32::MAX)`). -/
def Entity.PLACEHOLDER : Entity := 4294967295

/-- Component values. `observer scope sys` models a `bevy` `Observer`
component: `scope = some t` listens for events scoped to entity `t`,
`scope = none` is a global observer; `sys` is the opaque handler system. -/
inductive Value where
  | nat : Nat → Value
  | observer : Option Entity → Nat → Value
deriving DecidableEq, Repr

/-- A component set ("bundle"): a list of (component kind, value) pairs. -/
abbrev Bundle := List (Nat × Value)

/-- The fixed component kind under which `Observer` components are stored. -/
def observerKind : Nat := 0

/-- Deferred commands appended to the queue by the builder operations.
Modelled from the spec: the queue is an ordered, append-only list of pending
mutations, flushed at a defined synchronization point. -/
inductive Cmd where
  /-- Create entity `e` with the given attached component set. -/
  | spawn : Entity → Bundle → Cmd
  /-- Attach each listed child entity as a child of the parent entity. -/
  | pushChildren : Entity → List Entity → Cmd
  /-- Attach/overwrite the component set on the entity. -/
  | insert : Entity → Bundle → Cmd
  /-- Assign a human-readable label to the entity (external naming collaborator). -/
  | named : Entity → String → Cmd
  /-- Attach an event observer watching the entity (handler system id given). -/
  | observe : Entity → Nat → Cmd
deriving DecidableEq, Repr

/-- Modelled from the spec: `bevy::Commands`, the handle to the deferred
command queue. `next` is the next entity id the allocator will reserve;
reservation happens synchronously at append time even though the creation
command is applied only at flush. -/
structure Commands where
  queue : List Cmd
  next : Entity
deriving DecidableEq, Repr

/-- Modelled from the spec: `Commands::spawn(bundle).id()` reserves a fresh
entity id immediately and appends the creation command; the returned handle
is stable before flush. -/
def Commands.spawn (c : Commands) (bundle : Bundle) : Commands × Entity :=
  (⟨c.queue ++ [Cmd.spawn c.next bundle], c.next + 1⟩, c.next)

/-- Modelled from the spec: `EntityCommands`, the queue-scoped view restricted
to mutations of one handle (the seam the extension interfaces use). -/
structure EntityCommands where
  commands : Commands
  entity : Entity

/-- `Commands::entity(e)`: obtain the entity-scoped command accessor. -/
def Commands.entity (c : Commands) (e : Entity) : EntityCommands :=
  ⟨c, e⟩

/-- `EntityCommands::insert(bundle)`: append an attach/overwrite command. -/
def EntityCommands.insert (ec : EntityCommands) (bundle : Bundle) : EntityCommands :=
  ⟨⟨ec.commands.queue ++ [Cmd.insert ec.entity bundle], ec.commands.next⟩, ec.entity⟩

/-- Modelled from the spec: `EntityCommands::named(label)` from
`crate::ui_commands` (repository code not under `src/`): appends an
"assign this human-readable label" command, delegating to the external
naming collaborator. -/
def EntityCommands.named (ec : EntityCommands) (label : String) : EntityCommands :=
  ⟨⟨ec.commands.queue ++ [Cmd.named ec.entity label], ec.commands.next⟩, ec.entity⟩

/-- Modelled from the spec: `EntityCommands::observe(system)` appends a
command attaching an event observer bound to this handle. -/
def EntityCommands.observe (ec : EntityCommands) (sys : Nat) : EntityCommands :=
  ⟨⟨ec.commands.queue ++ [Cmd.observe ec.entity sys], ec.commands.next⟩, ec.entity⟩

/-- Modelled from the spec: the child-builder used inside `with_children`;
it shares the parent queue and accumulates the spawned children for the
parent-link command issued when the closure ends. -/
structure ChildBuilder where
  commands : Commands
  children : List Entity
  parent : Entity

/-- Child spawn inside `with_children`: reserves an id, appends the creation
command to the shared queue, and records the child for the parent link. -/
def ChildBuilder.spawn (cb : ChildBuilder) (bundle : Bundle) : ChildBuilder × Entity :=
  let r := cb.commands.spawn bundle
  (⟨r.1, cb.children ++ [r.2], cb.parent⟩, r.2)

/-- Modelled from the spec: `EntityCommands::with_children(closure)` runs the
closure eagerly against a child builder sharing the queue, then appends the
parent-link command for all recorded children immediately after the commands
the closure appended (child creation and parent attachment form one ordered
unit). -/
def EntityCommands.with_children {α : Type} (ec : EntityCommands)
    (f : ChildBuilder → ChildBuilder × α) : Commands × α :=
  let r := f ⟨ec.commands, [], ec.entity⟩
  (⟨r.1.commands.queue ++ [Cmd.pushChildren ec.entity r.1.children], r.1.commands.next⟩, r.2)

/-- The conceptual-root context marker (`UiRoot`). -/
structure UiRoot where
deriving DecidableEq, Repr

/-- `UiBuilder<'a, T>`: pairs the deferred-command queue with a context value. -/
structure UiBuilder (T : Type) where
  commands : Commands
  context : T

/-- `Commands::ui_builder(context)` (the `UiBuilderExt` entry point): wrap
the queue handle and a context into a builder. -/
def Commands.ui_builder {T : Type} (c : Commands) (context : T) : UiBuilder T :=
  ⟨c, context⟩

/-- `UiBuilder::<UiRoot>::spawn`: reserve a handle, enqueue the creation
command, and return a builder bound to the new handle. -/
def UiBuilder.rootSpawn (self : UiBuilder UiRoot) (bundle : Bundle) : UiBuilder Entity :=
  let r := self.commands.spawn bundle
  Commands.ui_builder r.1 r.2

/-- `UiBuilder::<Entity>::id`: returns the bound handle; pure. -/
def UiBuilder.id (self : UiBuilder Entity) : Entity :=
  self.context

/-- `UiBuilder::<Entity>::entity_commands`: the entity-scoped accessor. -/
def UiBuilder.entity_commands (self : UiBuilder Entity) : EntityCommands :=
  self.commands.entity self.id

/-- `UiBuilder::<Entity>::spawn`: starts from the `Entity::PLACEHOLDER`
sentinel, spawns the child inside `with_children` (the closure runs eagerly,
overwriting the placeholder with the reserved id), and returns a builder
bound to the new child. -/
def UiBuilder.spawn (self : UiBuilder Entity) (bundle : Bundle) : UiBuilder Entity :=
  let new_entity := Entity.PLACEHOLDER
  let entity := self.id
  let r := (self.commands.entity entity).with_children
    (fun parent => ChildBuilder.spawn parent bundle)
  let new_entity := r.2
  Commands.ui_builder r.1 new_entity

/-- `UiBuilder::<Entity>::insert`: append attach/overwrite, return self. -/
def UiBuilder.insert (self : UiBuilder Entity) (bundle : Bundle) : UiBuilder Entity :=
  let ec := self.entity_commands.insert bundle
  ⟨ec.commands, self.context⟩

/-- `UiBuilder::<Entity>::named`: append the label command, return self. -/
def UiBuilder.named (self : UiBuilder Entity) (label : String) : UiBuilder Entity :=
  let ec := self.entity_commands.named label
  ⟨ec.commands, self.context⟩

/-- `UiBuilder::<Entity>::observe`: attach an observer bound to this handle,
return self. -/
def UiBuilder.observe (self : UiBuilder Entity) (sys : Nat) : UiBuilder Entity :=
  let ec := self.entity_commands.observe sys
  ⟨ec.commands, self.context⟩

/-- `Observer::new(system)` with optional `with_entity` scope; stored as a
component on the listening entity. -/
structure Observer where
  sys : Nat
  scope : Option Entity
deriving DecidableEq, Repr

/-- `Observer::new(system)`: a global observer (no target restriction). -/
def Observer.new (sys : Nat) : Observer :=
  ⟨sys, none⟩

/-- `Observer::with_entity(target)`: restrict the listening scope to `target`. -/
def Observer.with_entity (o : Observer) (target : Entity) : Observer :=
  ⟨o.sys, some target⟩

/-- The component-set form of an `Observer` (it is inserted as a component). -/
def Observer.toBundle (o : Observer) : Bundle :=
  [(observerKind, Value.observer o.scope o.sys)]

/-- `UiBuilder::<Entity>::observe_target`: insert an observer component on
this handle, scoped to listen at a different target handle. -/
def UiBuilder.observe_target (self : UiBuilder Entity) (target : Entity) (sys : Nat) :
    UiBuilder Entity :=
  self.insert ((Observer.new sys).with_entity target).toBundle

/-- `UiBuilder::<Entity>::observe_global`: insert an observer component on
this handle with no target restriction. -/
def UiBuilder.observe_global (self : UiBuilder Entity) (sys : Nat) : UiBuilder Entity :=
  self.insert (Observer.new sys).toBundle

/-- Modelled from the spec: the scene-graph state the external runtime applies
the queue against at flush. Components, parent edges, labels and attached
observers per entity. -/
structure World where
  alive : Entity → Bool
  comp : Entity → Nat → Option Value
  parent : Entity → Option Entity
  label : Entity → Option String
  observed : List (Entity × Nat)

/-- The empty scene graph: no entity exists. -/
def World.empty : World :=
  ⟨fun _ => false, fun _ _ => none, fun _ => none, fun _ => none, []⟩

/-- Attach the bundle's components to `e` in order; a later entry of the same
kind overwrites an earlier one. -/
def World.insertBundle (w : World) (e : Entity) (b : Bundle) : World :=
  b.foldl
    (fun acc kv =>
      { acc with comp := fun x k => if x = e ∧ k = kv.1 then some kv.2 else acc.comp x k })
    w

/-- Modelled from the spec: applying one queued command to the scene graph. -/
def World.applyCmd (w : World) : Cmd → World
  | Cmd.spawn e b =>
      World.insertBundle
        { w with alive := fun x => if x = e then true else w.alive x } e b
  | Cmd.pushChildren p cs =>
      { w with parent := fun x => if x ∈ cs then some p else w.parent x }
  | Cmd.insert e b => World.insertBundle w e b
  | Cmd.named e s => { w with label := fun x => if x = e then some s else w.label x }
  | Cmd.observe e sys => { w with observed := w.observed ++ [(e, sys)] }

/-- Modelled from the spec: flush applies the whole queue in append order. -/
def World.flush (w : World) (q : List Cmd) : World :=
  q.foldl World.applyCmd w

/-- The value the last entry of kind `k` in the bundle supplies, with default
`d` when the bundle has no entry of kind `k` (last-write-wins lookup). -/
def lastVal (b : Bundle) (k : Nat) (d : Option Value) : Option Value :=
  b.foldl (fun acc kv => if kv.1 = k then some kv.2 else acc) d

/-- Styling errors of the checked styling accessor. -/
inductive StyleError where
  | missingComponent : Entity → Nat → StyleError
deriving DecidableEq, Repr

/-- The checked styling façade, scoped to one handle. -/
structure UiStyle where
  entity : Entity
deriving DecidableEq, Repr

/-- The unchecked styling façade, scoped to one handle. -/
structure UiStyleUnchecked where
  entity : Entity
deriving DecidableEq, Repr

/-- Modelled from the spec: `UiBuilder::<Entity>::style` delegates to the
checked styling accessor of `crate::ui_style` (repository code not under
`src/`). The checked accessor fails fast, synchronously at call time, when
the target handle lacks a component kind required for the styling kind to be
meaningful (`required` lists the kinds the styling kind requires, `w` is the
graph state the validation consults). -/
def UiBuilder.style (self : UiBuilder Entity) (w : World) (required : List Nat) :
    Except StyleError UiStyle :=
  match required.find? (fun k => (w.comp self.id k).isNone) with
  | some k => Except.error (StyleError.missingComponent self.id k)
  | none => Except.ok ⟨self.id⟩

/-- Modelled from the spec: `UiBuilder::<Entity>::style_unchecked` returns the
unchecked styling façade with no validation at call time. -/
def UiBuilder.style_unchecked (self : UiBuilder Entity) : UiStyleUnchecked :=
  ⟨self.id⟩

/-- One chained builder call of the kind the spec discusses for handle
stability: `insert`, `named` or `observe`. -/
inductive ChainOp where
  | ins : Bundle → ChainOp
  | nam : String → ChainOp
  | obs : Nat → ChainOp

/-- Apply one chained call to a builder. -/
def applyChainOp (b : UiBuilder Entity) : ChainOp → UiBuilder Entity
  | ChainOp.ins bundle => b.insert bundle
  | ChainOp.nam s => b.named s
  | ChainOp.obs sys => b.observe sys

/-- Apply a whole chain of `insert`/`named`/`observe` calls in order. -/
def applyChain (b : UiBuilder Entity) (ops : List ChainOp) : UiBuilder Entity :=
  ops.foldl applyChainOp b

/- Helper lemmas about the queue model. -/

theorem insertBundle_cons (w : World) (e : Entity) (kv : Nat × Value) (rest : Bundle) :
    World.insertBundle w e (kv :: rest)
      = World.insertBundle
          { w with comp := fun x k => if x = e ∧ k = kv.1 then some kv.2 else w.comp x k }
          e rest :=
  rfl

theorem lastVal_cons (kv : Nat × Value) (rest : Bundle) (k : Nat) (d : Option Value) :
    lastVal (kv :: rest) k d = lastVal rest k (if kv.1 = k then some kv.2 else d) :=
  rfl

theorem insertBundle_alive (w : World) (e : Entity) (b : Bundle) :
    (World.insertBundle w e b).alive = w.alive := by
  induction b generalizing w with
  | nil => rfl
  | cons kv rest ih => rw [insertBundle_cons, ih]

theorem insertBundle_parent (w : World) (e : Entity) (b : Bundle) :
    (World.insertBundle w e b).parent = w.parent := by
  induction b generalizing w with
  | nil => rfl
  | cons kv rest ih => rw [insertBundle_cons, ih]

theorem insertBundle_label (w : World) (e : Entity) (b : Bundle) :
    (World.insertBundle w e b).label = w.label := by
  induction b generalizing w with
  | nil => rfl
  | cons kv rest ih => rw [insertBundle_cons, ih]

theorem insertBundle_comp (w : World) (e : Entity) (b : Bundle) (x : Entity) (k : Nat) :
    (World.insertBundle w e b).comp x k
      = if x = e then lastVal b k (w.comp e k) else w.comp x k := by
  induction b generalizing w with
  | nil =>
      by_cases hx : x = e
      · subst hx; simp [World.insertBundle, lastVal]
      · simp [World.insertBundle, lastVal, hx]
  | cons kv rest ih =>
      rw [insertBundle_cons, ih, lastVal_cons]
      by_cases hx : x = e
      · subst hx
        by_cases hk : k = kv.1
        · simp [hk]
        · simp [hk, Ne.symm hk]
      · simp [hx]

theorem lastVal_of_not_mem (b : Bundle) (k : Nat) (d : Option Value)
    (h : k ∉ b.map Prod.fst) : lastVal b k d = d := by
  induction b generalizing d with
  | nil => rfl
  | cons kv rest ih =>
      rw [lastVal_cons]
      rw [List.map_cons, List.mem_cons, not_or] at h
      rw [if_neg (fun hk => h.1 hk.symm)]
      exact ih d h.2

theorem lastVal_of_mem_nodup (b : Bundle) (k : Nat) (v : Value) (d : Option Value)
    (hnd : (b.map Prod.fst).Nodup) (hm : (k, v) ∈ b) : lastVal b k d = some v := by
  induction b generalizing d with
  | nil => cases hm
  | cons kv rest ih =>
      rw [lastVal_cons]
      rw [List.map_cons, List.nodup_cons] at hnd
      rcases List.mem_cons.mp hm with h | h
      · have hk : kv.1 = k := by rw [← h]
        have hv : kv.2 = v := by rw [← h]
        rw [if_pos hk, lastVal_of_not_mem rest k _ (hk ▸ hnd.1), hv]
      · exact ih _ hnd.2 h

theorem flush_nil (w : World) : World.flush w [] = w :=
  rfl

theorem flush_cons (w : World) (c : Cmd) (q : List Cmd) :
    World.flush w (c :: q) = World.flush (w.applyCmd c) q :=
  rfl

theorem flush_append (w : World) (q1 q2 : List Cmd) :
    World.flush w (q1 ++ q2) = World.flush (World.flush w q1) q2 := by
  simp [World.flush, List.foldl_append]

theorem lastVal_append (b1 b2 : Bundle) (k : Nat) (d : Option Value) :
    lastVal (b1 ++ b2) k d = lastVal b2 k (lastVal b1 k d) := by
  simp [lastVal, List.foldl_append]

theorem foldl_insert_context (b : UiBuilder Entity) (bs : List Bundle) :
    (bs.foldl UiBuilder.insert b).context = b.context := by
  induction bs generalizing b with
  | nil => rfl
  | cons b0 rest ih => exact ih (b.insert b0)

theorem foldl_insert_queue (b : UiBuilder Entity) (bs : List Bundle) :
    (bs.foldl UiBuilder.insert b).commands.queue
      = b.commands.queue ++ bs.map (Cmd.insert b.context) := by
  induction bs generalizing b with
  | nil => simp
  | cons b0 rest ih =>
      have h := ih (b.insert b0)
      simp only [List.foldl_cons, List.map_cons]
      rw [h]
      simp [UiBuilder.insert, UiBuilder.entity_commands, Commands.entity,
        EntityCommands.insert, UiBuilder.id]

theorem flush_inserts_comp (w : World) (e : Entity) (bs : List Bundle) (k : Nat) :
    (World.flush w (bs.map (Cmd.insert e))).comp e k
      = lastVal bs.flatten k (w.comp e k) := by
  induction bs generalizing w with
  | nil => rfl
  | cons b0 rest ih =>
      rw [List.map_cons, flush_cons, ih]
      show lastVal rest.flatten k ((World.insertBundle w e b0).comp e k) = _
      rw [insertBundle_comp, if_pos rfl, List.flatten_cons, lastVal_append]

theorem applyCmd_spawn_comp (w : World) (e : Entity) (b : Bundle) (x : Entity) (k : Nat) :
    (w.applyCmd (Cmd.spawn e b)).comp x k
      = if x = e then lastVal b k (w.comp e k) else w.comp x k :=
  insertBundle_comp { w with alive := fun y => if y = e then true else w.alive y } e b x k

theorem applyCmd_spawn_alive (w : World) (e : Entity) (b : Bundle) (x : Entity) :
    (w.applyCmd (Cmd.spawn e b)).alive x = if x = e then true else w.alive x := by
  show (World.insertBundle _ e b).alive x = _
  rw [insertBundle_alive]

theorem applyCmd_spawn_parent (w : World) (e : Entity) (b : Bundle) :
    (w.applyCmd (Cmd.spawn e b)).parent = w.parent := by
  show (World.insertBundle _ e b).parent = _
  rw [insertBundle_parent]

theorem applyCmd_spawn_label (w : World) (e : Entity) (b : Bundle) :
    (w.applyCmd (Cmd.spawn e b)).label = w.label := by
  show (World.insertBundle _ e b).label = _
  rw [insertBundle_label]

theorem applyCmd_insert_comp (w : World) (e : Entity) (b : Bundle) (x : Entity) (k : Nat) :
    (w.applyCmd (Cmd.insert e b)).comp x k
      = if x = e then lastVal b k (w.comp e k) else w.comp x k :=
  insertBundle_comp w e b x k

theorem applyCmd_pushChildren_parent (w : World) (p : Entity) (cs : List Entity) (x : Entity) :
    (w.applyCmd (Cmd.pushChildren p cs)).parent x = if x ∈ cs then some p else w.parent x :=
  rfl

theorem applyCmd_pushChildren_comp (w : World) (p : Entity) (cs : List Entity) :
    (w.applyCmd (Cmd.pushChildren p cs)).comp = w.comp :=
  rfl

theorem applyCmd_pushChildren_alive (w : World) (p : Entity) (cs : List Entity) :
    (w.applyCmd (Cmd.pushChildren p cs)).alive = w.alive :=
  rfl

theorem applyCmd_pushChildren_label (w : World) (p : Entity) (cs : List Entity) :
    (w.applyCmd (Cmd.pushChildren p cs)).label = w.label :=
  rfl

theorem applyCmd_named_label (w : World) (e : Entity) (s : String) (x : Entity) :
    (w.applyCmd (Cmd.named e s)).label x = if x = e then some s else w.label x :=
  rfl

theorem applyCmd_named_comp (w : World) (e : Entity) (s : String) :
    (w.applyCmd (Cmd.named e s)).comp = w.comp :=
  rfl

theorem applyCmd_named_parent (w : World) (e : Entity) (s : String) :
    (w.applyCmd (Cmd.named e s)).parent = w.parent :=
  rfl

theorem applyCmd_named_alive (w : World) (e : Entity) (s : String) :
    (w.applyCmd (Cmd.named e s)).alive = w.alive :=
  rfl

theorem spawn_queue (b : UiBuilder Entity) (bundle : Bundle) :
    (b.spawn bundle).commands.queue
      = b.commands.queue
        ++ [Cmd.spawn b.commands.next bundle, Cmd.pushChildren b.context [b.commands.next]] := by
  simp [UiBuilder.spawn, UiBuilder.id, UiBuilder.entity_commands, Commands.entity,
    EntityCommands.with_children, ChildBuilder.spawn, Commands.spawn, Commands.ui_builder]

theorem applyChainOp_context (b : UiBuilder Entity) (op : ChainOp) :
    (applyChainOp b op).context = b.context := by
  cases op <;> rfl

theorem applyChain_context (b : UiBuilder Entity) (ops : List ChainOp) :
    (applyChain b ops).context = b.context := by
  induction ops generalizing b with
  | nil => rfl
  | cons op rest ih =>
      show (applyChain (applyChainOp b op) rest).context = b.context
      rw [ih (applyChainOp b op), applyChainOp_context]

/-- C1: `UiBuilder::<Entity>::spawn` enqueues the child-creation command and
the parent-link command as one ordered unit, with the parent-link command
immediately after the creation command; hence after any flush of the
resulting queue the new entity is alive and is a child of the bound handle
(the child is never orphaned). -/
theorem C1_child_spawn_ordered_unit (b : UiBuilder Entity) (bundle : Bundle) (w : World) :
    (b.spawn bundle).commands.queue
      = b.commands.queue
        ++ [Cmd.spawn b.commands.next bundle, Cmd.pushChildren b.context [b.commands.next]]
    ∧ (World.flush w
        (b.commands.queue
          ++ [Cmd.spawn b.commands.next bundle,
              Cmd.pushChildren b.context [b.commands.next]])).alive b.commands.next = true
    ∧ (World.flush w
        (b.commands.queue
          ++ [Cmd.spawn b.commands.next bundle,
              Cmd.pushChildren b.context [b.commands.next]])).parent b.commands.next
        = some b.context := by
  refine ⟨spawn_queue b bundle, ?_, ?_⟩
  · rw [flush_append]
    simp only [flush_cons, flush_nil]
    rw [applyCmd_pushChildren_alive, applyCmd_spawn_alive]
    simp
  · rw [flush_append]
    simp only [flush_cons, flush_nil]
    rw [applyCmd_pushChildren_parent]
    simp

/-- C4: chaining any number of `insert` calls on one `Builder<Entity>` keeps
the bound context (each call returns self), appends one attach/overwrite
command per call in order, and after flush each component kind holds the
value supplied by the last insert that wrote it (last-write-wins). -/
theorem C4_insert_last_write_wins (b : UiBuilder Entity) (bs : List Bundle) (w : World)
    (k : Nat) :
    (bs.foldl UiBuilder.insert b).context = b.context
    ∧ (bs.foldl UiBuilder.insert b).commands.queue
        = b.commands.queue ++ bs.map (Cmd.insert b.context)
    ∧ (World.flush w (b.commands.queue ++ bs.map (Cmd.insert b.context))).comp b.context k
        = lastVal bs.flatten k ((World.flush w b.commands.queue).comp b.context k) := by
  refine ⟨foldl_insert_context b bs, foldl_insert_queue b bs, ?_⟩
  rw [flush_append, flush_inserts_comp]

/-- C5: `id()` is pure (it just returns the bound context) and an arbitrary
chain of `insert`/`named`/`observe` calls never changes the handle `id()`
returns. -/
theorem C5_id_stable_under_chaining (b : UiBuilder Entity) (ops : List ChainOp) :
    UiBuilder.id b = b.context ∧ (applyChain b ops).id = b.id :=
  ⟨rfl, applyChain_context b ops⟩

/-- C7: every append-time operation of the builder core is infallible: each
one unconditionally appends its commands to the queue (no error return and
no failure branch at this layer). -/
theorem C7_append_time_infallible (r : UiBuilder UiRoot) (b : UiBuilder Entity)
    (bundle : Bundle) (s : String) (t : Entity) (sys : Nat) :
    (r.rootSpawn bundle).commands.queue
      = r.commands.queue ++ [Cmd.spawn r.commands.next bundle]
    ∧ (b.spawn bundle).commands.queue
        = b.commands.queue
          ++ [Cmd.spawn b.commands.next bundle, Cmd.pushChildren b.context [b.commands.next]]
    ∧ (b.insert bundle).commands.queue = b.commands.queue ++ [Cmd.insert b.context bundle]
    ∧ (b.named s).commands.queue = b.commands.queue ++ [Cmd.named b.context s]
    ∧ (b.observe sys).commands.queue = b.commands.queue ++ [Cmd.observe b.context sys]
    ∧ (b.observe_target t sys).commands.queue
        = b.commands.queue
          ++ [Cmd.insert b.context [(observerKind, Value.observer (some t) sys)]]
    ∧ (b.observe_global sys).commands.queue
        = b.commands.queue
          ++ [Cmd.insert b.context [(observerKind, Value.observer none sys)]]
    ∧ b.entity_commands.commands.queue = b.commands.queue :=
  ⟨rfl, spawn_queue b bundle, rfl, rfl, rfl, rfl, rfl, rfl⟩

/-- C8: `observe_target(T, handler)` on `Builder<Entity(H)>` appends an
insert of the observer component on H itself (the listening entity's
storage) while the observer's listening scope recorded in that component
is T; after flush the observer stored on H carries scope T. -/
theorem C8_observe_target_storage_and_scope (b : UiBuilder Entity) (t : Entity) (sys : Nat)
    (w : World) :
    (b.observe_target t sys).commands.queue
      = b.commands.queue
        ++ [Cmd.insert b.context [(observerKind, Value.observer (some t) sys)]]
    ∧ (World.flush w
        (b.commands.queue
          ++ [Cmd.insert b.context [(observerKind, Value.observer (some t) sys)]])).comp
        b.context observerKind = some (Value.observer (some t) sys) := by
  refine ⟨rfl, ?_⟩
  rw [flush_append]
  simp only [flush_cons, flush_nil]
  rw [applyCmd_insert_comp, if_pos rfl]
  rfl

/-- C9: a builder's context is immutable: `insert`/`named`/`observe`/
`observe_target`/`observe_global` all return a builder with the same
context, `entity_commands` is scoped to exactly that context, and the two
`spawn` operations produce a new builder bound to the newly reserved entity
instead of mutating the context in place. -/
theorem C9_context_immutable (r : UiBuilder UiRoot) (b : UiBuilder Entity)
    (bundle : Bundle) (s : String) (t : Entity) (sys : Nat) :
    (b.insert bundle).context = b.context
    ∧ (b.named s).context = b.context
    ∧ (b.observe sys).context = b.context
    ∧ (b.observe_target t sys).context = b.context
    ∧ (b.observe_global sys).context = b.context
    ∧ b.entity_commands.entity = b.context
    ∧ (b.spawn bundle).context = b.commands.next
    ∧ (r.rootSpawn bundle).context = r.commands.next :=
  ⟨rfl, rfl, rfl, rfl, rfl, rfl, rfl, rfl⟩

/-- C10: `UiBuilder::<Entity>::spawn` returns a builder bound to the actual
reserved identifier of the new child (the next id the allocator hands out),
never to the `Entity::PLACEHOLDER` sentinel it is locally initialized with,
because the child-spawning closure runs eagerly at append time. -/
theorem C10_spawn_returns_reserved_id (b : UiBuilder Entity) (bundle : Bundle)
    (h : b.commands.next ≠ Entity.PLACEHOLDER) :
    (b.spawn bundle).context = b.commands.next
    ∧ (b.spawn bundle).context ≠ Entity.PLACEHOLDER :=
  ⟨rfl, h⟩

/-- Witness for C10 at a concrete builder. -/
theorem C10_spawn_returns_reserved_id_witness :
    (Commands.ui_builder (Commands.mk [] 0) (5 : Entity)).commands.next ≠ Entity.PLACEHOLDER
    ∧ (((Commands.ui_builder (Commands.mk [] 0) (5 : Entity)).spawn []).context
          = (Commands.ui_builder (Commands.mk [] 0) (5 : Entity)).commands.next
        ∧ ((Commands.ui_builder (Commands.mk [] 0) (5 : Entity)).spawn []).context
          ≠ Entity.PLACEHOLDER) :=
  ⟨by decide,
    C10_spawn_returns_reserved_id (Commands.ui_builder (Commands.mk [] 0) 5) [] (by decide)⟩

/-- C3: a `Builder<UiRoot>` spawn appends exactly one creation command;
flushing it creates exactly one new entity (the reserved handle), whose
attached components equal the spawned bundle, and the returned builder is
bound to that stable handle, usable in further chained operations that are
queued after the creation command. -/
theorem C3_root_spawn_unique_entity (r : UiBuilder UiRoot) (C : Bundle) (w : World)
    (hq : r.commands.queue = [])
    (halive : w.alive r.commands.next = false)
    (hcomp : ∀ k, w.comp r.commands.next k = none)
    (hnd : (C.map Prod.fst).Nodup) :
    (r.rootSpawn C).context = r.commands.next
    ∧ (r.rootSpawn C).commands.queue = [Cmd.spawn r.commands.next C]
    ∧ (∀ e, ((World.flush w [Cmd.spawn r.commands.next C]).alive e = true
          ∧ w.alive e = false) ↔ e = r.commands.next)
    ∧ (∀ kv ∈ C,
        (World.flush w [Cmd.spawn r.commands.next C]).comp r.commands.next kv.1 = some kv.2)
    ∧ (∀ k, k ∉ C.map Prod.fst →
        (World.flush w [Cmd.spawn r.commands.next C]).comp r.commands.next k = none)
    ∧ (∀ D, ((r.rootSpawn C).insert D).commands.queue
        = [Cmd.spawn r.commands.next C, Cmd.insert r.commands.next D]) := by
  refine ⟨rfl, ?_, ?_, ?_, ?_, ?_⟩
  · show r.commands.queue ++ [Cmd.spawn r.commands.next C] = _
    rw [hq]
    rfl
  · intro e
    simp only [flush_cons, flush_nil]
    rw [applyCmd_spawn_alive]
    constructor
    · rintro ⟨h1, h2⟩
      by_contra hne
      rw [if_neg hne] at h1
      rw [h1] at h2
      cases h2
    · rintro rfl
      exact ⟨by simp, halive⟩
  · intro kv hkv
    simp only [flush_cons, flush_nil]
    rw [applyCmd_spawn_comp, if_pos rfl, hcomp kv.1]
    exact lastVal_of_mem_nodup C kv.1 kv.2 none hnd (by simpa using hkv)
  · intro k hk
    simp only [flush_cons, flush_nil]
    rw [applyCmd_spawn_comp, if_pos rfl, hcomp k]
    exact lastVal_of_not_mem C k none hk
  · intro D
    show (r.rootSpawn C).commands.queue ++ [Cmd.insert r.commands.next D] = _
    show (r.commands.queue ++ [Cmd.spawn r.commands.next C]) ++ [Cmd.insert r.commands.next D] = _
    rw [hq]
    rfl

/-- Witness for C3 at a concrete fresh builder, bundle and world. -/
theorem C3_root_spawn_unique_entity_witness :
    ((Commands.ui_builder (Commands.mk [] 4) UiRoot.mk).commands.queue = []
      ∧ World.empty.alive 4 = false
      ∧ (∀ k, World.empty.comp 4 k = none)
      ∧ ((([((1 : Nat), Value.nat 2)] : Bundle).map Prod.fst).Nodup))
    ∧ (((Commands.ui_builder (Commands.mk [] 4) UiRoot.mk).rootSpawn [(1, Value.nat 2)]).context = 4
      ∧ ((Commands.ui_builder (Commands.mk [] 4) UiRoot.mk).rootSpawn [(1, Value.nat 2)]).commands.queue
          = [Cmd.spawn 4 [(1, Value.nat 2)]]
      ∧ (∀ e, ((World.flush World.empty [Cmd.spawn 4 [(1, Value.nat 2)]]).alive e = true
            ∧ World.empty.alive e = false) ↔ e = 4)
      ∧ (∀ kv ∈ ([((1 : Nat), Value.nat 2)] : Bundle),
          (World.flush World.empty [Cmd.spawn 4 [(1, Value.nat 2)]]).comp 4 kv.1 = some kv.2)
      ∧ (∀ k, k ∉ ([((1 : Nat), Value.nat 2)] : Bundle).map Prod.fst →
          (World.flush World.empty [Cmd.spawn 4 [(1, Value.nat 2)]]).comp 4 k = none)
      ∧ (∀ D, (((Commands.ui_builder (Commands.mk [] 4) UiRoot.mk).rootSpawn
            [(1, Value.nat 2)]).insert D).commands.queue
          = [Cmd.spawn 4 [(1, Value.nat 2)], Cmd.insert 4 D])) :=
  ⟨⟨rfl, rfl, fun _ => rfl, by decide⟩,
    C3_root_spawn_unique_entity (Commands.ui_builder (Commands.mk [] 4) UiRoot.mk)
      [(1, Value.nat 2)] World.empty rfl rfl (fun _ => rfl) (by decide)⟩

/-- C6: when the bound handle lacks a component kind a checked styling kind
requires, the checked accessor `style()` fails synchronously at call time
(it returns the invariant-violation error, before any flush), while
`style_unchecked()` performs no validation and always returns the façade. -/
theorem C6_checked_style_fails_fast (b : UiBuilder Entity) (w : World)
    (required : List Nat) (k : Nat) (hk : k ∈ required) (hmiss : w.comp b.id k = none) :
    (b.style w required).isOk = false
    ∧ b.style_unchecked = UiStyleUnchecked.mk b.id := by
  refine ⟨?_, rfl⟩
  cases hfind : required.find? (fun j => (w.comp b.id j).isNone) with
  | none =>
      exfalso
      have hnone := List.find?_eq_none.mp hfind k hk
      rw [hmiss] at hnone
      exact hnone rfl
  | some j =>
      simp [UiBuilder.style, hfind, Except.isOk, Except.toBool]

/-- Witness for C6 at a concrete handle with no components. -/
theorem C6_checked_style_fails_fast_witness :
    ((3 : Nat) ∈ [(3 : Nat)]
      ∧ World.empty.comp (Commands.ui_builder (Commands.mk [] 0) (7 : Entity)).id 3 = none)
    ∧ (((Commands.ui_builder (Commands.mk [] 0) (7 : Entity)).style World.empty [3]).isOk
          = false
        ∧ (Commands.ui_builder (Commands.mk [] 0) (7 : Entity)).style_unchecked
          = UiStyleUnchecked.mk (Commands.ui_builder (Commands.mk [] 0) (7 : Entity)).id) :=
  ⟨⟨by decide, rfl⟩,
    C6_checked_style_fails_fast (Commands.ui_builder (Commands.mk [] 0) 7) World.empty
      [3] 3 (by decide) rfl⟩

/-- C2: the spec scenario — `root.spawn(A)` returns a builder bound to handle
e1, chaining `.spawn(B).named("child")` returns a builder bound to e2; the
queue holds exactly the creation of e1 with A, the creation of e2 with B,
the parent link, and the label command; after flush e1 carries component set
A, e2 carries component set B plus the label "child", and e2's parent is e1. -/
theorem C2_root_child_scenario (n : Nat) (A B : Bundle) (w : World)
    (hA : (A.map Prod.fst).Nodup) (hB : (B.map Prod.fst).Nodup)
    (hw1 : ∀ k, w.comp n k = none) (hw2 : ∀ k, w.comp (n + 1) k = none) :
    ((Commands.ui_builder (Commands.mk [] n) UiRoot.mk).rootSpawn A).context = n
    ∧ (((Commands.ui_builder (Commands.mk [] n) UiRoot.mk).rootSpawn A).spawn B).context
        = n + 1
    ∧ ((((Commands.ui_builder (Commands.mk [] n) UiRoot.mk).rootSpawn A).spawn B).named
        "child").context = n + 1
    ∧ ((((Commands.ui_builder (Commands.mk [] n) UiRoot.mk).rootSpawn A).spawn B).named
        "child").commands.queue
        = [Cmd.spawn n A, Cmd.spawn (n + 1) B, Cmd.pushChildren n [n + 1],
            Cmd.named (n + 1) "child"]
    ∧ (∀ kv ∈ A,
        (World.flush w [Cmd.spawn n A, Cmd.spawn (n + 1) B, Cmd.pushChildren n [n + 1],
          Cmd.named (n + 1) "child"]).comp n kv.1 = some kv.2)
    ∧ (∀ k, k ∉ A.map Prod.fst →
        (World.flush w [Cmd.spawn n A, Cmd.spawn (n + 1) B, Cmd.pushChildren n [n + 1],
          Cmd.named (n + 1) "child"]).comp n k = none)
    ∧ (∀ kv ∈ B,
        (World.flush w [Cmd.spawn n A, Cmd.spawn (n + 1) B, Cmd.pushChildren n [n + 1],
          Cmd.named (n + 1) "child"]).comp (n + 1) kv.1 = some kv.2)
    ∧ (∀ k, k ∉ B.map Prod.fst →
        (World.flush w [Cmd.spawn n A, Cmd.spawn (n + 1) B, Cmd.pushChildren n [n + 1],
          Cmd.named (n + 1) "child"]).comp (n + 1) k = none)
    ∧ (World.flush w [Cmd.spawn n A, Cmd.spawn (n + 1) B, Cmd.pushChildren n [n + 1],
        Cmd.named (n + 1) "child"]).label (n + 1) = some "child"
    ∧ (World.flush w [Cmd.spawn n A, Cmd.spawn (n + 1) B, Cmd.pushChildren n [n + 1],
        Cmd.named (n + 1) "child"]).parent (n + 1) = some n := by
  have hne : ¬ (n = n + 1) := by omega
  have hne2 : ¬ (n + 1 = n) := by omega
  refine ⟨rfl, rfl, rfl, rfl, ?_, ?_, ?_, ?_, ?_, ?_⟩
  · intro kv hkv
    simp only [flush_cons, flush_nil]
    rw [applyCmd_named_comp, applyCmd_pushChildren_comp, applyCmd_spawn_comp, if_neg hne,
      applyCmd_spawn_comp, if_pos rfl, hw1 kv.1]
    exact lastVal_of_mem_nodup A kv.1 kv.2 none hA (by simpa using hkv)
  · intro k hk
    simp only [flush_cons, flush_nil]
    rw [applyCmd_named_comp, applyCmd_pushChildren_comp, applyCmd_spawn_comp, if_neg hne,
      applyCmd_spawn_comp, if_pos rfl, hw1 k]
    exact lastVal_of_not_mem A k none hk
  · intro kv hkv
    simp only [flush_cons, flush_nil]
    rw [applyCmd_named_comp, applyCmd_pushChildren_comp, applyCmd_spawn_comp, if_pos rfl,
      applyCmd_spawn_comp, if_neg hne2, hw2 kv.1]
    exact lastVal_of_mem_nodup B kv.1 kv.2 none hB (by simpa using hkv)
  · intro k hk
    simp only [flush_cons, flush_nil]
    rw [applyCmd_named_comp, applyCmd_pushChildren_comp, applyCmd_spawn_comp, if_pos rfl,
      applyCmd_spawn_comp, if_neg hne2, hw2 k]
    exact lastVal_of_not_mem B k none hk
  · simp only [flush_cons, flush_nil]
    rw [applyCmd_named_label, if_pos rfl]
  · simp only [flush_cons, flush_nil]
    rw [applyCmd_named_parent, applyCmd_pushChildren_parent]
    simp

/-- Witness for C2 at concrete bundles and the empty world. -/
theorem C2_root_child_scenario_witness :
    ((([((1 : Nat), Value.nat 10)] : Bundle).map Prod.fst).Nodup
      ∧ (([((2 : Nat), Value.nat 20)] : Bundle).map Prod.fst).Nodup
      ∧ (∀ k, World.empty.comp 0 k = none)
      ∧ (∀ k, World.empty.comp 1 k = none))
    ∧ (((Commands.ui_builder (Commands.mk [] 0) UiRoot.mk).rootSpawn
          [(1, Value.nat 10)]).context = 0
      ∧ (((Commands.ui_builder (Commands.mk [] 0) UiRoot.mk).rootSpawn
          [(1, Value.nat 10)]).spawn [(2, Value.nat 20)]).context = 1
      ∧ ((((Commands.ui_builder (Commands.mk [] 0) UiRoot.mk).rootSpawn
          [(1, Value.nat 10)]).spawn [(2, Value.nat 20)]).named "child").context = 1
      ∧ ((((Commands.ui_builder (Commands.mk [] 0) UiRoot.mk).rootSpawn
          [(1, Value.nat 10)]).spawn [(2, Value.nat 20)]).named "child").commands.queue
          = [Cmd.spawn 0 [(1, Value.nat 10)], Cmd.spawn 1 [(2, Value.nat 20)],
              Cmd.pushChildren 0 [1], Cmd.named 1 "child"]
      ∧ (∀ kv ∈ ([((1 : Nat), Value.nat 10)] : Bundle),
          (World.flush World.empty [Cmd.spawn 0 [(1, Value.nat 10)],
            Cmd.spawn 1 [(2, Value.nat 20)], Cmd.pushChildren 0 [1],
            Cmd.named 1 "child"]).comp 0 kv.1 = some kv.2)
      ∧ (∀ k, k ∉ ([((1 : Nat), Value.nat 10)] : Bundle).map Prod.fst →
          (World.flush World.empty [Cmd.spawn 0 [(1, Value.nat 10)],
            Cmd.spawn 1 [(2, Value.nat 20)], Cmd.pushChildren 0 [1],
            Cmd.named 1 "child"]).comp 0 k = none)
      ∧ (∀ kv ∈ ([((2 : Nat), Value.nat 20)] : Bundle),
          (World.flush World.empty [Cmd.spawn 0 [(1, Value.nat 10)],
            Cmd.spawn 1 [(2, Value.nat 20)], Cmd.pushChildren 0 [1],
            Cmd.named 1 "child"]).comp 1 kv.1 = some kv.2)
      ∧ (∀ k, k ∉ ([((2 : Nat), Value.nat 20)] : Bundle).map Prod.fst →
          (World.flush World.empty [Cmd.spawn 0 [(1, Value.nat 10)],
            Cmd.spawn 1 [(2, Value.nat 20)], Cmd.pushChildren 0 [1],
            Cmd.named 1 "child"]).comp 1 k = none)
      ∧ (World.flush World.empty [Cmd.spawn 0 [(1, Value.nat 10)],
          Cmd.spawn 1 [(2, Value.nat 20)], Cmd.pushChildren 0 [1],
          Cmd.named 1 "child"]).label 1 = some "child"
      ∧ (World.flush World.empty [Cmd.spawn 0 [(1, Value.nat 10)],
          Cmd.spawn 1 [(2, Value.nat 20)], Cmd.pushChildren 0 [1],
          Cmd.named 1 "child"]).parent 1 = some 0) :=
  ⟨⟨by decide, by decide, fun _ => rfl, fun _ => rfl⟩,
    C2_root_child_scenario 0 [(1, Value.nat 10)] [(2, Value.nat 20)] World.empty
      (by decide) (by decide) (fun _ => rfl) (fun _ => rfl)⟩

end SickleUi
